import Mathlib

/-
Verification development for the portal coordinate and reachability engine
of the CCD04.github.io portal-list page.

Modelling conventions (shallow embedding of the JavaScript source):
* JavaScript numbers held in portal coordinate fields are modelled as
  rationals (ℚ); a field holding `null` is modelled as `none : Option ℚ`.
* `Math.floor (x / 8)` is `(⌊x / 8⌋ : ℚ)` via the integer floor.
* `distance3D` in the source returns `Math.sqrt (dx*dx + dy*dy + dz*dz)`.
  Square roots of rationals are irrational in general, so distances are
  represented throughout by their squares (the radicand `dx*dx + dy*dy +
  dz*dz`).  `Math.sqrt` is strictly monotone on non-negative inputs, so
  every comparison the source performs on distances (the strict `<` of the
  running minimum) and every set/unset outcome is preserved exactly by this
  representation; only the numeric magnitude that would be displayed
  differs (it is the square of the displayed value).
* The two world tags are the string constants WORLD_OVERWORLD / WORLD_NETHER
  of the source, modelled as a two-constructor inductive type.
-/

namespace PortalEngine

/-- World tags: the source's string constants WORLD_OVERWORLD and
WORLD_NETHER. -/
inductive World
  | Overworld
  | Nether
  deriving DecidableEq

/-- A portal's derived `travel` record `{ x, y, z, world }`; every field may
be `null`. -/
structure Travel where
  x : Option ℚ
  y : Option ℚ
  z : Option ℚ
  world : Option World
  deriving DecidableEq

/-- A portal's derived `closest` record `{ name, distance }`. -/
structure Closest where
  name : Option String
  distance : Option ℚ
  deriving DecidableEq

/-- The value stored in `target.distance`: either a numeric distance or the
string sentinel "Cannot Reach" of the source. -/
inductive TargetDist
  | dist (d : ℚ)
  | cannotReach
  deriving DecidableEq

/-- A portal's derived `target` record `{ name, distance }`. -/
structure TargetRes where
  name : Option String
  distance : Option TargetDist
  deriving DecidableEq

/-- A portal record as produced by `createBlankPortal` / `sanitizePortal`. -/
structure Portal where
  name : String
  destination : String
  x : Option ℚ
  y : Option ℚ
  z : Option ℚ
  world : World
  travel : Travel
  closest : Closest
  target : TargetRes
  deriving DecidableEq

/-- The all-`null` travel record. -/
def blankTravel : Travel := ⟨none, none, none, none⟩

/-- The all-`null` closest record. -/
def blankClosest : Closest := ⟨none, none⟩

/-- The all-`null` target record. -/
def blankTarget : TargetRes := ⟨none, none⟩

/-- Source `createBlankPortal`: empty strings, all coordinates null,
Overworld world, blank derived records. -/
def createBlankPortal : Portal :=
  { name := ""
    destination := ""
    x := none
    y := none
    z := none
    world := World.Overworld
    travel := blankTravel
    closest := blankClosest
    target := blankTarget }

/-- Source `convertCoords (x, z, fromWorld, toWorld)`.  Returns both
outputs null when either input is null; floors the division by 8 going
Overworld → Nether; multiplies by 8 exactly going Nether → Overworld;
is the identity otherwise (same-world conversion). -/
def convertCoords (x z : Option ℚ) (fromWorld toWorld : World) :
    Option ℚ × Option ℚ :=
  match x, z with
  | some xv, some zv =>
    match fromWorld, toWorld with
    | World.Overworld, World.Nether =>
        (some (⌊xv / 8⌋ : ℚ), some (⌊zv / 8⌋ : ℚ))
    | World.Nether, World.Overworld =>
        (some (xv * 8), some (zv * 8))
    | _, _ => (some xv, some zv)
  | _, _ => (none, none)

/-- Source `distance3D (x1, y1, z1, x2, y2, z2)`.  Null when any of the six
inputs is null; otherwise the squared Euclidean distance (the radicand of
the source's `Math.sqrt`; see the header comment on distance
representation). -/
def distance3D (x1 y1 z1 x2 y2 z2 : Option ℚ) : Option ℚ :=
  match x1, y1, z1, x2, y2, z2 with
  | some a, some b, some c, some d, some e, some f =>
      some ((d - a) * (d - a) + (e - b) * (e - b) + (f - c) * (f - c))
  | _, _, _, _, _, _ => none

/-- Source `computePortalTravelLocation (portal)`, as a pure function
returning the new `travel` record: fully null when the portal's own
position is incomplete, otherwise the converted (x, z) in the opposite
world with y carried through unchanged. -/
def computePortalTravelLocation (portal : Portal) : Travel :=
  match portal.x, portal.y, portal.z with
  | some xv, some yv, some zv =>
    let targetWorld :=
      if portal.world = World.Overworld then World.Nether else World.Overworld
    let converted := convertCoords (some xv) (some zv) portal.world targetWorld
    { x := converted.1, y := some yv, z := converted.2, world := some targetWorld }
  | _, _, _ => { x := none, y := none, z := none, world := none }

/-- The `portals.forEach((other, i) => ...)` loop body of the source's
`computeClosestPortal`, with the element index threaded explicitly and the
running state `acc` holding the current best candidate together with its
(squared) distance; `acc = none` models `best = null, bestDist = Infinity`
(every finite distance compares below Infinity, so the first surviving
candidate always replaces `none`). -/
def closestLoop (travel : Travel) (tx tz maxRange : ℚ) (index : ℕ) :
    ℕ → Option (Portal × ℚ) → List Portal → Option (Portal × ℚ)
  | _, acc, [] => acc
  | i, acc, other :: rest =>
    let acc' :=
      if i = index then acc
      else if some other.world ≠ travel.world then acc
      else
        match other.x, other.z with
        | some ox, some oz =>
          if |ox - tx| > maxRange ∨ |oz - tz| > maxRange then acc
          else
            match distance3D travel.x travel.y travel.z other.x other.y other.z with
            | none => acc
            | some d3 =>
              match acc with
              | none => some (other, d3)
              | some (_, bestDist) =>
                if d3 < bestDist then some (other, d3) else acc
        | _, _ => acc
    closestLoop travel tx tz maxRange index (i + 1) acc' rest

/-- Source `computeClosestPortal (portal, index)`, as a pure function of the
whole portal list returning the new `closest` record.  Fully null when the
portal's travel x or z is null; otherwise scans the list (skipping the
portal's own index) with the square bounding-box pre-filter and a strict-<
running minimum, and falls back to the literal "(unnamed)" when the
winner's name is empty. -/
def computeClosestPortal (portals : List Portal) (portal : Portal)
    (index : ℕ) : Closest :=
  let travel := portal.travel
  match travel.x, travel.z with
  | some tx, some tz =>
    let maxRange : ℚ := if travel.world = some World.Nether then 16 else 128
    match closestLoop travel tx tz maxRange index 0 none portals with
    | some (best, bestDist) =>
        { name := some (if best.name = "" then "(unnamed)" else best.name)
          distance := some bestDist }
    | none => { name := none, distance := none }
  | _, _ => { name := none, distance := none }

/-- Source `computeTargetPortal (portal)`, as a pure function of the whole
portal list returning the new `target` record.  An empty destination gives
a fully null result; `portals.find` resolves the destination by exact name
(first match); a found target with null x or z gives a fully null result;
a null travel x or z, a travel/target world mismatch, or a bounding-box
failure gives the "Cannot Reach" sentinel; otherwise the 3D distance
(null when a y coordinate is null, since the source stores `d3`
unconditionally at that point). -/
def computeTargetPortal (portals : List Portal) (portal : Portal) : TargetRes :=
  if portal.destination = "" then { name := none, distance := none }
  else
    match portals.find? (fun p => p.name == portal.destination) with
    | none => { name := none, distance := none }
    | some target =>
      match target.x, target.z with
      | some tgx, some tgz =>
        match portal.travel.x, portal.travel.z with
        | some tvx, some tvz =>
          if portal.travel.world ≠ some target.world then
            { name := some target.name, distance := some TargetDist.cannotReach }
          else
            let maxRange : ℚ :=
              if portal.travel.world = some World.Nether then 16 else 128
            if |tgx - tvx| > maxRange ∨ |tgz - tvz| > maxRange then
              { name := some target.name, distance := some TargetDist.cannotReach }
            else
              { name := some target.name
                distance :=
                  (distance3D portal.travel.x portal.travel.y portal.travel.z
                    target.x target.y target.z).map TargetDist.dist }
        | _, _ =>
          { name := some target.name, distance := some TargetDist.cannotReach }
      | _, _ => { name := none, distance := none }

/-- Source `deletePortal (index)` as a list transformer: `splice(index, 1)`
(remove the element at `index` when it exists), then re-insert one blank
portal when the list became empty. -/
def deletePortal (ps : List Portal) (index : ℕ) : List Portal :=
  let spliced := ps.eraseIdx index
  if spliced = [] then [createBlankPortal] else spliced

/-- Source `initializePortals`: adopt the stored list when present and
non-empty, otherwise start from one blank portal.  The argument models the
result of `loadPortalsFromStorage` (`none` = absent / unparsable). -/
def initializePortals (stored : Option (List Portal)) : List Portal :=
  match stored with
  | some l => if l.length > 0 then l else [createBlankPortal]
  | none => [createBlankPortal]

/-- Source `resetPortals` (list part): replace the list with one blank
portal. -/
def resetPortals : List Portal := [createBlankPortal]

/-- Source `importPortalsFromFile` (list part): the argument models the
parsed file content, `none` when parsing failed or the content was not an
array (in which case the current list is kept after the alert), and
`some l` when it was an array, which replaces the list wholesale with no
further validation. -/
def importPortalsFromFile (current : List Portal)
    (imported : Option (List Portal)) : List Portal :=
  match imported with
  | none => current
  | some l => l

/-- A JavaScript value sitting in a field of a raw (unsanitized) record:
a string, a finite number, a non-finite number, null, undefined, a
boolean, or any other object. -/
inductive JSVal
  | vstr (s : String)
  | vnum (q : ℚ)
  | vnan
  | vnull
  | vundef
  | vbool (b : Bool)
  | vobj
  deriving DecidableEq

/-- A raw record as handed to `sanitizePortal`: the scalar fields may hold
any JavaScript value; the derived-record fields are modelled as present or
absent (the source keeps a truthy `raw.travel` as-is and substitutes the
blank record otherwise, and the derived records are recomputed by the next
sweep in any case). -/
structure RawPortal where
  name : JSVal
  destination : JSVal
  x : JSVal
  y : JSVal
  z : JSVal
  world : JSVal
  travel : Option Travel
  closest : Option Closest
  target : Option TargetRes
  deriving DecidableEq

/-- Source `sanitizePortal (raw)`.  The argument `none` models a raw value
(null / undefined) on which the very first field access throws, landing in
the catch branch that returns a blank portal.  Otherwise: non-string names
become "", non-finite coordinates become null, and any world value other
than the exact string "Nether" is coerced to Overworld. -/
def sanitizePortal (raw : Option RawPortal) : Portal :=
  match raw with
  | none => createBlankPortal
  | some r =>
    { name := (match r.name with | JSVal.vstr s => s | _ => "")
      destination := (match r.destination with | JSVal.vstr s => s | _ => "")
      x := (match r.x with | JSVal.vnum q => some q | _ => none)
      y := (match r.y with | JSVal.vnum q => some q | _ => none)
      z := (match r.z with | JSVal.vnum q => some q | _ => none)
      world := if r.world = JSVal.vstr "Nether" then World.Nether else World.Overworld
      travel := r.travel.getD blankTravel
      closest := r.closest.getD blankClosest
      target := r.target.getD blankTarget }

/-- Source `loadPortalsFromStorage`: `none` models an absent key, a JSON
parse error, or a non-array parse result; an array maps every element
through `sanitizePortal`. -/
def loadPortalsFromStorage (parsed : Option (List (Option RawPortal))) :
    Option (List Portal) :=
  match parsed with
  | none => none
  | some l => some (l.map sanitizePortal)

/-- Modelled from the spec: one entry of the candidate list of the
closest-portal search (§4.4), transcribed from the spec's words for the
refinement theorem of the search: a portal at another index, in world `w`,
with complete position, inside the square bounding box of radius `r`
around the travel point, paired with its (squared) 3D distance from the
travel point. -/
def candEntry (index : ℕ) (tx ty tz : ℚ) (w : World) (r : ℚ) (i : ℕ)
    (other : Portal) : Option (Portal × ℚ) :=
  match other.x, other.y, other.z with
  | some ox, some oy, some oz =>
    if i ≠ index ∧ other.world = w ∧ |ox - tx| ≤ r ∧ |oz - tz| ≤ r then
      some (other,
        (ox - tx) * (ox - tx) + (oy - ty) * (oy - ty) + (oz - tz) * (oz - tz))
    else none
  | _, _, _ => none

/-- Modelled from the spec: the ordered candidate list of the
closest-portal search (§4.4) over the tail of the portal list starting at
index `i`. -/
def specCandidates (index : ℕ) (tx ty tz : ℚ) (w : World) (r : ℚ) :
    ℕ → List Portal → List (Portal × ℚ)
  | _, [] => []
  | i, other :: rest =>
    match candEntry index tx ty tz w r i other with
    | some c => c :: specCandidates index tx ty tz w r (i + 1) rest
    | none => specCandidates index tx ty tz w r (i + 1) rest

/-- Modelled from the spec: the first list entry attaining the minimal
distance (ties go to the earlier entry, §4.4's tie-break). -/
def firstMin : List (Portal × ℚ) → Option (Portal × ℚ)
  | [] => none
  | (o, d) :: rest =>
    match firstMin rest with
    | none => some (o, d)
    | some (o', d') => if d ≤ d' then some (o, d) else some (o', d')

/-- Combine a best-of-candidates result with a previously accumulated best:
keep the accumulated best unless the candidate side is strictly smaller
(mirroring the strict `<` of the source's running minimum). -/
def mergeMin (r acc : Option (Portal × ℚ)) : Option (Portal × ℚ) :=
  match r, acc with
  | none, a => a
  | some c, none => some c
  | some (o, d), some (b, db) => if d < db then some (o, d) else some (b, db)

/-- Modelled from the spec: the whole closest-portal contract of §4.4 in
the spec's own words, for the refinement theorem — radius 16 in the Nether
and 128 otherwise, candidate list in order, first minimal candidate, name
with the "(unnamed)" fallback, both fields unset when no candidate
passes. -/
def closestSpec (portals : List Portal) (index : ℕ) (tx ty tz : ℚ)
    (w : World) : Closest :=
  let r : ℚ := if w = World.Nether then 16 else 128
  match firstMin (specCandidates index tx ty tz w r 0 portals) with
  | some (best, d) =>
      { name := some (if best.name = "" then "(unnamed)" else best.name)
        distance := some d }
  | none => { name := none, distance := none }

/-- A rational is reproduced by flooring its eighth and multiplying back by
8 exactly when it is an integer multiple of 8. -/
theorem floor_eighth_mul_eight_eq_iff (x : ℚ) :
    (⌊x / 8⌋ : ℚ) * 8 = x ↔ ∃ k : ℤ, x = 8 * k := by
  constructor
  · intro h
    exact ⟨⌊x / 8⌋, by linarith⟩
  · rintro ⟨k, rfl⟩
    have h8 : ((8 : ℚ) * k) / 8 = (k : ℚ) := by
      field_simp
    rw [h8, Int.floor_intCast]
    ring

/-- C3: conversion Primary (Overworld) → Alternate (Nether) floors each
horizontal coordinate divided by 8, conversion Alternate → Primary
multiplies by 8 exactly, conversion between identical worlds is the
identity, and travel-location derivation carries the vertical coordinate
through unchanged for portals of either world. -/
theorem convertCoords_rules :
    (∀ x z : ℚ, convertCoords (some x) (some z) World.Overworld World.Nether
        = (some (⌊x / 8⌋ : ℚ), some (⌊z / 8⌋ : ℚ))) ∧
    (∀ x z : ℚ, convertCoords (some x) (some z) World.Nether World.Overworld
        = (some (x * 8), some (z * 8))) ∧
    (∀ (x z : ℚ) (w : World),
        convertCoords (some x) (some z) w w = (some x, some z)) ∧
    (∀ (n d : String) (x y z : ℚ) (w : World)
        (tr : Travel) (cl : Closest) (tg : TargetRes),
        (computePortalTravelLocation
            ⟨n, d, some x, some y, some z, w, tr, cl, tg⟩).y = some y) := by
  refine ⟨fun x z => rfl, fun x z => rfl, fun x z w => ?_, fun n d x y z w tr cl tg => rfl⟩
  cases w <;> rfl

/-- C5: converting Primary → Alternate and back yields exactly
(⌊x/8⌋*8, ⌊z/8⌋*8), and the round trip reproduces the original pair if
and only if both coordinates are integer multiples of 8. -/
theorem convertCoords_roundTrip (x z : ℚ) :
    convertCoords (convertCoords (some x) (some z) World.Overworld World.Nether).1
        (convertCoords (some x) (some z) World.Overworld World.Nether).2
        World.Nether World.Overworld
      = (some ((⌊x / 8⌋ : ℚ) * 8), some ((⌊z / 8⌋ : ℚ) * 8)) ∧
    (convertCoords (convertCoords (some x) (some z) World.Overworld World.Nether).1
        (convertCoords (some x) (some z) World.Overworld World.Nether).2
        World.Nether World.Overworld
      = (some x, some z) ↔ (∃ k : ℤ, x = 8 * k) ∧ (∃ k : ℤ, z = 8 * k)) := by
  constructor
  · rfl
  · rw [show convertCoords (convertCoords (some x) (some z) World.Overworld World.Nether).1
        (convertCoords (some x) (some z) World.Overworld World.Nether).2
        World.Nether World.Overworld
      = (some ((⌊x / 8⌋ : ℚ) * 8), some ((⌊z / 8⌋ : ℚ) * 8)) from rfl]
    rw [Prod.ext_iff]
    simp only [Option.some.injEq]
    rw [floor_eighth_mul_eight_eq_iff, floor_eighth_mul_eight_eq_iff]

/-- C6 (amended): deleting at any index, initializing from storage, and
resetting always leave a non-empty list, and deleting the only remaining
portal yields exactly one freshly blank portal; importing, however,
replaces the list wholesale — it keeps the current list only when the
input is not an array and otherwise adopts the imported array as-is. -/
theorem portalList_mutations :
    (∀ (ps : List Portal) (i : ℕ), deletePortal ps i ≠ []) ∧
    (∀ p : Portal, deletePortal [p] 0 = [createBlankPortal]) ∧
    (∀ st : Option (List Portal), initializePortals st ≠ []) ∧
    resetPortals ≠ [] ∧
    (∀ cur : List Portal, importPortalsFromFile cur none = cur) ∧
    (∀ (cur imported : List Portal),
        importPortalsFromFile cur (some imported) = imported) := by
  refine ⟨?_, ?_, ?_, ?_, fun cur => rfl, fun cur imported => rfl⟩
  · intro ps i h
    by_cases h1 : ps.eraseIdx i = [] <;> simp [deletePortal, h1] at h
  · intro p
    rfl
  · intro st h
    match st with
    | none => exact List.cons_ne_nil _ _ h
    | some l =>
      by_cases h1 : l.length > 0 <;> simp [initializePortals, h1] at h
      rw [h] at h1
      simp at h1
  · exact List.cons_ne_nil _ _

/-- C6 counterexample: importing an empty array is a list-mutating
operation after which the portal list is empty, refuting the claim that
every list-mutating operation leaves the list non-empty. -/
theorem importPortals_empty_counterexample :
    importPortalsFromFile [createBlankPortal] (some []) = [] := rfl

/-- C7: the distance operation returns unset whenever any of its six input
coordinates is unset, and the convert operation returns both outputs unset
whenever either input coordinate is unset (both are total functions of
type Option, so no exception and no NaN can be produced). -/
theorem unset_inputs_give_unset :
    (∀ x1 y1 z1 x2 y2 z2 : Option ℚ,
        x1 = none ∨ y1 = none ∨ z1 = none ∨ x2 = none ∨ y2 = none ∨ z2 = none →
        distance3D x1 y1 z1 x2 y2 z2 = none) ∧
    (∀ (x z : Option ℚ) (fromWorld toWorld : World),
        x = none ∨ z = none → convertCoords x z fromWorld toWorld = (none, none)) := by
  constructor
  · intro x1 y1 z1 x2 y2 z2 h
    rcases x1 with _ | a <;> rcases y1 with _ | b <;> rcases z1 with _ | c <;>
      rcases x2 with _ | d <;> rcases y2 with _ | e <;> rcases z2 with _ | f <;>
      simp_all [distance3D]
  · intro x z fromWorld toWorld h
    rcases x with _ | a <;> rcases z with _ | b <;> simp_all [convertCoords]

/-- C7 witness: the theorem applied at concrete unset inputs. -/
theorem unset_inputs_give_unset_witness :
    distance3D none (some 1) (some 2) (some 3) (some 4) (some 5) = none ∧
    convertCoords (some 7) none World.Overworld World.Nether = (none, none) :=
  ⟨unset_inputs_give_unset.1 none (some 1) (some 2) (some 3) (some 4) (some 5)
      (Or.inl rfl),
   unset_inputs_give_unset.2 (some 7) none World.Overworld World.Nether
      (Or.inr rfl)⟩

/-- C10: a portal with an empty destination string gets a fully unset
target result whatever the list contents, and no target result ever
carries an empty name — so a portal named by the empty string can never be
resolved as a destination target. -/
theorem computeTargetPortal_empty_destination
    (portals : List Portal) (portal : Portal) :
    (portal.destination = "" → computeTargetPortal portals portal = ⟨none, none⟩) ∧
    (∀ n : String, (computeTargetPortal portals portal).name = some n → n ≠ "") := by
  constructor
  · intro h
    simp [computeTargetPortal, h]
  · intro n hn hne
    subst hne
    by_cases hd : portal.destination = ""
    · simp [computeTargetPortal, hd] at hn
    · cases hf : portals.find? (fun p => p.name == portal.destination) with
      | none => simp [computeTargetPortal, hd, hf] at hn
      | some t =>
        have hname : t.name = portal.destination := by
          have := List.find?_some hf
          simpa using this
        simp only [computeTargetPortal, if_neg hd, hf] at hn
        repeat' split at hn
        all_goals simp_all

/-- A concrete resolvable target portal named "T" used by witnesses. -/
def namedTPortal : Portal :=
  { name := "T"
    destination := ""
    x := some 0
    y := some 0
    z := some 0
    world := World.Nether
    travel := blankTravel
    closest := blankClosest
    target := blankTarget }

/-- A concrete portal whose destination is "T" and whose travel location
is fully defined in the Nether, used by witnesses. -/
def seekTPortal : Portal :=
  { name := "S"
    destination := "T"
    x := none
    y := none
    z := none
    world := World.Overworld
    travel := ⟨some 0, some 0, some 0, some World.Nether⟩
    closest := blankClosest
    target := blankTarget }

/-- C10 witness: the theorem applied at concrete inputs — the empty
destination gives the fully unset result, and a resolved name is never
empty. -/
theorem computeTargetPortal_empty_destination_witness :
    computeTargetPortal [createBlankPortal] createBlankPortal = ⟨none, none⟩ ∧
    "T" ≠ "" :=
  ⟨(computeTargetPortal_empty_destination [createBlankPortal] createBlankPortal).1 rfl,
   (computeTargetPortal_empty_destination [namedTPortal] seekTPortal).2 "T"
      (by simp [computeTargetPortal, namedTPortal, seekTPortal, distance3D]
          norm_num)⟩

/-- C2 (amended): with a non-empty destination, an unresolved name or a
first match with unset x or z gives a fully unset target result; a first
match whose x and z are set but whose y is unset falls through to the
later checks instead (see the counterexample). -/
theorem computeTargetPortal_unresolved_unset
    (portals : List Portal) (portal : Portal)
    (hdest : portal.destination ≠ "") :
    (portals.find? (fun p => p.name == portal.destination) = none →
        computeTargetPortal portals portal = ⟨none, none⟩) ∧
    (∀ target, portals.find? (fun p => p.name == portal.destination) = some target →
        target.x = none ∨ target.z = none →
        computeTargetPortal portals portal = ⟨none, none⟩) := by
  constructor
  · intro hf
    simp [computeTargetPortal, hdest, hf]
  · intro target hf hxz
    rcases hxz with hx | hz
    · simp [computeTargetPortal, hdest, hf, hx]
    · rcases htx : target.x with _ | tgx <;>
        simp [computeTargetPortal, hdest, hf, htx, hz]

/-- C2 witness: the theorem applied at concrete inputs (an unresolved
destination, and a resolved target with unset z). -/
theorem computeTargetPortal_unresolved_unset_witness :
    computeTargetPortal [] { createBlankPortal with destination := "Q" }
        = ⟨none, none⟩ ∧
    computeTargetPortal
        [{ createBlankPortal with name := "T", x := some 1 }]
        { createBlankPortal with destination := "T" } = ⟨none, none⟩ :=
  ⟨(computeTargetPortal_unresolved_unset [] { createBlankPortal with destination := "Q" }
      (by decide)).1 rfl,
   (computeTargetPortal_unresolved_unset
      [{ createBlankPortal with name := "T", x := some 1 }]
      { createBlankPortal with destination := "T" } (by decide)).2
      { createBlankPortal with name := "T", x := some 1 } (by decide) (Or.inr rfl)⟩

/-- Concrete source portal for the C2 counterexample: non-empty
destination "T" and a fully defined travel location in the Nether. -/
def c2srcPortal : Portal :=
  { name := "A"
    destination := "T"
    x := some 0
    y := some 0
    z := some 0
    world := World.Overworld
    travel := ⟨some 0, some 0, some 0, some World.Nether⟩
    closest := blankClosest
    target := blankTarget }

/-- Concrete target portal for the C2 counterexample: its y coordinate is
unset (so its position is incomplete), but its x and z are set. -/
def c2tgtPortal : Portal :=
  { name := "T"
    destination := ""
    x := some 0
    y := none
    z := some 0
    world := World.Nether
    travel := blankTravel
    closest := blankClosest
    target := blankTarget }

/-- C2 counterexample: the first match for the destination has an
incomplete position (y unset), yet the target result is not fully unset —
the source only guards x and z, so the result carries the target's name
with an unset distance. -/
theorem computeTargetPortal_incomplete_y_counterexample :
    c2srcPortal.destination ≠ "" ∧
    [c2srcPortal, c2tgtPortal].find? (fun p => p.name == c2srcPortal.destination)
        = some c2tgtPortal ∧
    c2tgtPortal.y = none ∧
    computeTargetPortal [c2srcPortal, c2tgtPortal] c2srcPortal = ⟨some "T", none⟩ ∧
    (⟨some "T", none⟩ : TargetRes) ≠ ⟨none, none⟩ := by
  refine ⟨by decide, by decide, rfl, ?_, by decide⟩
  simp [computeTargetPortal, c2srcPortal, c2tgtPortal, distance3D]

/-- C4: when the destination resolves to a target with complete position
but the portal's travel world differs from the target's world, the result
is the target's name paired with the "Cannot Reach" sentinel — not unset
and not a number. -/
theorem computeTargetPortal_world_mismatch (portals : List Portal)
    (portal target : Portal)
    (hdest : portal.destination ≠ "")
    (hfind : portals.find? (fun p => p.name == portal.destination) = some target)
    (hx : ∃ q, target.x = some q) (_hy : ∃ q, target.y = some q)
    (hz : ∃ q, target.z = some q)
    (hw : portal.travel.world ≠ some target.world) :
    computeTargetPortal portals portal
      = ⟨some target.name, some TargetDist.cannotReach⟩ := by
  obtain ⟨tgx, htx⟩ := hx
  obtain ⟨tgz, htz⟩ := hz
  simp only [computeTargetPortal, if_neg hdest, hfind, htx, htz]
  rcases htvx : portal.travel.x with _ | tvx <;>
    rcases htvz : portal.travel.z with _ | tvz <;>
    simp [htvx, htvz, hw]

/-- A concrete portal whose destination is "T" but whose travel location
lies in the Overworld, used by the C4 witness. -/
def seekTWrongWorld : Portal :=
  { name := "S"
    destination := "T"
    x := none
    y := none
    z := none
    world := World.Nether
    travel := ⟨some 0, some 0, some 0, some World.Overworld⟩
    closest := blankClosest
    target := blankTarget }

/-- C4 witness: the theorem applied at a concrete cross-world input (the
raw 3D distance there is 0, yet the sentinel is produced). -/
theorem computeTargetPortal_world_mismatch_witness :
    computeTargetPortal [namedTPortal] seekTWrongWorld
      = ⟨some "T", some TargetDist.cannotReach⟩ :=
  computeTargetPortal_world_mismatch [namedTPortal] seekTWrongWorld namedTPortal
    (by decide) rfl ⟨0, rfl⟩ ⟨0, rfl⟩ ⟨0, rfl⟩ (by decide)

/-- C9: sanitization always yields a well-formed portal — string fields
are preserved when the raw field is a string and emptied otherwise,
coordinates are kept exactly when the raw field is a finite number and
unset otherwise, the world tag is one of the two world values with
anything other than the exact string "Nether" coerced to Overworld, and a
record whose field access fails sanitizes to a blank portal. -/
theorem sanitizePortal_wellFormed :
    sanitizePortal none = createBlankPortal ∧
    ∀ r : RawPortal,
      (∀ s, r.name = JSVal.vstr s → (sanitizePortal (some r)).name = s) ∧
      ((∀ s, r.name ≠ JSVal.vstr s) → (sanitizePortal (some r)).name = "") ∧
      (∀ s, r.destination = JSVal.vstr s →
        (sanitizePortal (some r)).destination = s) ∧
      ((∀ s, r.destination ≠ JSVal.vstr s) →
        (sanitizePortal (some r)).destination = "") ∧
      (∀ q, r.x = JSVal.vnum q → (sanitizePortal (some r)).x = some q) ∧
      ((∀ q, r.x ≠ JSVal.vnum q) → (sanitizePortal (some r)).x = none) ∧
      (∀ q, r.y = JSVal.vnum q → (sanitizePortal (some r)).y = some q) ∧
      ((∀ q, r.y ≠ JSVal.vnum q) → (sanitizePortal (some r)).y = none) ∧
      (∀ q, r.z = JSVal.vnum q → (sanitizePortal (some r)).z = some q) ∧
      ((∀ q, r.z ≠ JSVal.vnum q) → (sanitizePortal (some r)).z = none) ∧
      ((sanitizePortal (some r)).world = World.Overworld ∨
        (sanitizePortal (some r)).world = World.Nether) ∧
      (r.world ≠ JSVal.vstr "Nether" →
        (sanitizePortal (some r)).world = World.Overworld) ∧
      (r.world = JSVal.vstr "Nether" →
        (sanitizePortal (some r)).world = World.Nether) := by
  refine ⟨rfl, fun r => ?_⟩
  refine ⟨fun _ h => by simp [sanitizePortal, h], ?_,
          fun _ h => by simp [sanitizePortal, h], ?_,
          fun _ h => by simp [sanitizePortal, h], ?_,
          fun _ h => by simp [sanitizePortal, h], ?_,
          fun _ h => by simp [sanitizePortal, h], ?_,
          ?_, ?_, fun h => by simp [sanitizePortal, h]⟩
  · intro h
    cases hv : r.name <;> first | exact absurd hv (h _) | simp [sanitizePortal, hv]
  · intro h
    cases hv : r.destination <;>
      first | exact absurd hv (h _) | simp [sanitizePortal, hv]
  · intro h
    cases hv : r.x <;> first | exact absurd hv (h _) | simp [sanitizePortal, hv]
  · intro h
    cases hv : r.y <;> first | exact absurd hv (h _) | simp [sanitizePortal, hv]
  · intro h
    cases hv : r.z <;> first | exact absurd hv (h _) | simp [sanitizePortal, hv]
  · by_cases hw : r.world = JSVal.vstr "Nether"
    · right
      simp [sanitizePortal, hw]
    · left
      simp [sanitizePortal, hw]
  · intro h
    simp [sanitizePortal, h]

/-- C9 witness: the theorem applied at a concrete raw record with a
numeric name, a string x, a non-finite y, a finite z, and a boolean
world. -/
theorem sanitizePortal_wellFormed_witness :
    (sanitizePortal (some ⟨JSVal.vnum 3, JSVal.vnull, JSVal.vstr "5", JSVal.vnan,
        JSVal.vnum 7, JSVal.vbool true, none, none, none⟩)).name = "" ∧
    (sanitizePortal (some ⟨JSVal.vnum 3, JSVal.vnull, JSVal.vstr "5", JSVal.vnan,
        JSVal.vnum 7, JSVal.vbool true, none, none, none⟩)).x = none ∧
    (sanitizePortal (some ⟨JSVal.vnum 3, JSVal.vnull, JSVal.vstr "5", JSVal.vnan,
        JSVal.vnum 7, JSVal.vbool true, none, none, none⟩)).z = some 7 ∧
    (sanitizePortal (some ⟨JSVal.vnum 3, JSVal.vnull, JSVal.vstr "5", JSVal.vnan,
        JSVal.vnum 7, JSVal.vbool true, none, none, none⟩)).world = World.Overworld :=
  ⟨(sanitizePortal_wellFormed.2 _).2.1 (fun _ h => JSVal.noConfusion h),
   (sanitizePortal_wellFormed.2 _).2.2.2.2.2.1 (fun _ h => JSVal.noConfusion h),
   (sanitizePortal_wellFormed.2 _).2.2.2.2.2.2.2.2.1 7 rfl,
   (sanitizePortal_wellFormed.2 _).2.2.2.2.2.2.2.2.2.2.2.1
      (fun h => JSVal.noConfusion h)⟩

/-- Merging nothing leaves the accumulator unchanged. -/
theorem mergeMin_none_left (acc : Option (Portal × ℚ)) : mergeMin none acc = acc := by
  cases acc <;> rfl

/-- Merging into an empty accumulator yields the candidate side. -/
theorem mergeMin_none_right (r : Option (Portal × ℚ)) : mergeMin r none = r := by
  rcases r with _ | ⟨o, d⟩ <;> rfl

/-- One step of the source loop equals merging the current element's
candidate entry (when any) into the accumulator, provided the travel
record is fully defined. -/
theorem closestLoop_cons (tx ty tz : ℚ) (w : World) (r : ℚ) (index i : ℕ)
    (acc : Option (Portal × ℚ)) (other : Portal) (rest : List Portal) :
    closestLoop ⟨some tx, some ty, some tz, some w⟩ tx tz r index i acc (other :: rest)
      = closestLoop ⟨some tx, some ty, some tz, some w⟩ tx tz r index (i + 1)
          (mergeMin (candEntry index tx ty tz w r i other) acc) rest := by
  simp only [closestLoop]
  congr 1
  by_cases hidx : i = index
  · rcases hx : other.x with _ | ox <;> rcases hy : other.y with _ | oy <;>
      rcases hz : other.z with _ | oz <;>
      simp [candEntry, mergeMin_none_left, hidx, hx, hy, hz]
  · by_cases hworld : other.world = w
    · rcases hx : other.x with _ | ox
      · simp [candEntry, mergeMin_none_left, hidx, hworld, hx]
      · rcases hz : other.z with _ | oz
        · simp [candEntry, mergeMin_none_left, hidx, hworld, hx, hz]
        · rcases hy : other.y with _ | oy
          · -- position incomplete in y: the 3D distance is null, the
            -- source skips the candidate, and the spec-side entry is none
            simp only [candEntry, hidx, hworld, hx, hy, hz, distance3D,
              ne_eq, Option.some.injEq, not_true_eq_false, if_false,
              mergeMin_none_left]
            split_ifs <;> simp [mergeMin_none_left]
          · -- complete candidate in the right world at another index
            simp only [candEntry, hidx, hworld, hx, hy, hz, distance3D,
              ne_eq, Option.some.injEq, not_true_eq_false, if_false,
              mergeMin_none_left]
            by_cases hbox : |ox - tx| > r ∨ |oz - tz| > r
            · rw [if_pos hbox]
              have hfail : ¬(¬False ∧ True ∧ |ox - tx| ≤ r ∧ |oz - tz| ≤ r) := by
                rintro ⟨-, -, h1, h2⟩
                rcases hbox with hb | hb
                · exact absurd h1 (not_le.mpr hb)
                · exact absurd h2 (not_le.mpr hb)
              rw [if_neg hfail, mergeMin_none_left]
            · rw [if_neg hbox]
              push_neg at hbox
              rw [if_pos ⟨not_false, trivial, hbox.1, hbox.2⟩]
              rcases acc with _ | ⟨b, db⟩ <;> simp [mergeMin]
    · rcases hx : other.x with _ | ox <;> rcases hy : other.y with _ | oy <;>
        rcases hz : other.z with _ | oz <;>
        simp [candEntry, mergeMin_none_left, hidx, hworld, hx, hy, hz]

/-- Merging two present candidates keeps the accumulated one unless the
new one is strictly smaller. -/
theorem mergeMin_some_some (o b : Portal) (d db : ℚ) :
    mergeMin (some (o, d)) (some (b, db))
      = if d < db then some (o, d) else some (b, db) := rfl

/-- Folding one candidate into the accumulator first and then taking the
best of the remaining candidates agrees with taking the first minimum of
the whole candidate list (strict `<` against the accumulator implements
the earlier-wins tie-break). -/
theorem mergeMin_firstMin_cons (c : Portal × ℚ) (tl : List (Portal × ℚ))
    (acc : Option (Portal × ℚ)) :
    mergeMin (firstMin (c :: tl)) acc
      = mergeMin (firstMin tl) (mergeMin (some c) acc) := by
  obtain ⟨o, d⟩ := c
  cases hm : firstMin tl with
  | none => simp [firstMin, hm, mergeMin_none_left]
  | some c' =>
    obtain ⟨o', d'⟩ := c'
    rcases acc with _ | ⟨b, db⟩
    · simp only [firstMin, hm, mergeMin_none_right]
      split_ifs
      all_goals try simp only [mergeMin_some_some]
      all_goals try split_ifs
      all_goals first | rfl | (exfalso; linarith)
    · simp only [firstMin, hm]
      split_ifs
      all_goals try simp only [mergeMin_some_some]
      all_goals try split_ifs
      all_goals try simp only [mergeMin_some_some]
      all_goals try split_ifs
      all_goals first | rfl | (exfalso; linarith)

/-- The source loop over any suffix of the portal list computes exactly
the first minimum of the spec-side candidate list merged into the
accumulator, provided the travel record is fully defined. -/
theorem closestLoop_eq_firstMin (tx ty tz : ℚ) (w : World) (r : ℚ) (index : ℕ) :
    ∀ (l : List Portal) (i : ℕ) (acc : Option (Portal × ℚ)),
      closestLoop ⟨some tx, some ty, some tz, some w⟩ tx tz r index i acc l
        = mergeMin (firstMin (specCandidates index tx ty tz w r i l)) acc := by
  intro l
  induction l with
  | nil =>
    intro i acc
    simp [closestLoop, specCandidates, firstMin, mergeMin_none_left]
  | cons other rest ih =>
    intro i acc
    rw [closestLoop_cons, ih]
    simp only [specCandidates]
    cases hce : candEntry index tx ty tz w r i other with
    | none => rw [mergeMin_none_left]
    | some c => rw [mergeMin_firstMin_cons]

/-- C1: for a portal whose travel location is fully defined in world `w`,
the source's closest-portal computation coincides with the spec-side
description: candidates are exactly the other-index portals in world `w`
with complete positions inside the square box of radius 16 (Nether) / 128
(otherwise) around the travel point; among them the first one attaining
the minimal 3D distance wins (strict `<` keeps the earlier candidate on
ties); the result is its name — "(unnamed)" when empty — with its
distance, or both unset when no candidate passes. -/
theorem computeClosestPortal_eq_closestSpec (portals : List Portal)
    (portal : Portal) (index : ℕ) (tx ty tz : ℚ) (w : World)
    (htravel : portal.travel = ⟨some tx, some ty, some tz, some w⟩) :
    computeClosestPortal portals portal index = closestSpec portals index tx ty tz w := by
  have hr : ((⟨some tx, some ty, some tz, some w⟩ : Travel).world
        = some World.Nether) = (w = World.Nether) := by
    simp
  simp only [computeClosestPortal, closestSpec, htravel, hr]
  rw [closestLoop_eq_firstMin, mergeMin_none_right]

/-- A concrete Overworld portal with a fully defined Nether travel
location, used by the C1 witness. -/
def c1SearchPortal : Portal :=
  { name := "P"
    destination := ""
    x := some 80
    y := some 70
    z := some 80
    world := World.Overworld
    travel := ⟨some 10, some 70, some 10, some World.Nether⟩
    closest := blankClosest
    target := blankTarget }

/-- A concrete Nether portal coinciding with the witness portal's travel
location. -/
def c1NetherPortal : Portal :=
  { name := "C"
    destination := ""
    x := some 10
    y := some 70
    z := some 10
    world := World.Nether
    travel := blankTravel
    closest := blankClosest
    target := blankTarget }

/-- C1 witness: the theorem applied at a concrete list with a defined
travel location. -/
theorem computeClosestPortal_eq_closestSpec_witness :
    c1SearchPortal.travel = ⟨some 10, some 70, some 10, some World.Nether⟩ ∧
    computeClosestPortal [c1SearchPortal, c1NetherPortal] c1SearchPortal 0
      = closestSpec [c1SearchPortal, c1NetherPortal] 0 10 70 10 World.Nether :=
  ⟨rfl, computeClosestPortal_eq_closestSpec [c1SearchPortal, c1NetherPortal]
    c1SearchPortal 0 10 70 10 World.Nether rfl⟩

end PortalEngine
